import Mathlib

/-!
Verification of the `dns` record-mutation module of
AkamaiOPEN-edgegrid-golang (`pkg/dns`): a shallow embedding of
`RecordBody.Validate`, `RecordToMap`, `NewRecordBody`, `localLock`, and the
three mutating operations `CreateRecord`, `UpdateRecord`, `DeleteRecord`,
together with theorems about validation, status-code classification,
lock discipline and the behaviour of the validation guard.
-/

namespace DnsSpec

/-- `RecordBody` from the Go source: the fields used by the v2 API
(`Name`, `RecordType`, `TTL`, `Active`, `Target`). `TTL` is a Go `int`,
modelled as `Int`. -/
structure RecordBody where
  Name : String
  RecordType : String
  TTL : Int
  Active : Bool
  Target : List String
  deriving DecidableEq, Repr

/-- ozzo `validation.Required` on a Go `string`: an error exactly on the
empty string (the zero value). -/
def requiredString (s : String) : Option String :=
  if s = "" then some "cannot be blank" else none

/-- ozzo `validation.Required` on a Go `int`: an error exactly on `0`
(the zero value); any non-zero value, negative included, passes. -/
def requiredInt (n : Int) : Option String :=
  if n = 0 then some "cannot be blank" else none

/-- ozzo `validation.Required` on a Go `[]string`: an error exactly on a
nil or empty slice. -/
def requiredStringList (l : List String) : Option String :=
  if l.isEmpty then some "cannot be blank" else none

/-- `(*RecordBody).Validate` from the source: a `validation.Errors` map
over the four fields, each checked with `validation.Required`, then
`.Filter()`: drop the nil entries and return nil when none remain. -/
def RecordBody.Validate (rec : RecordBody) : Option (List (String × String)) :=
  let errs : List (String × Option String) :=
    [("Name", requiredString rec.Name),
     ("RecordType", requiredString rec.RecordType),
     ("TTL", requiredInt rec.TTL),
     ("Target", requiredStringList rec.Target)]
  let filtered := errs.filterMap (fun p => p.2.map (fun e => (p.1, e)))
  if filtered.isEmpty then none else some filtered

/-- A Go function value: nil, or an actual function. Needed to embed the
source guards literally: they test a method value against nil instead of
calling it. -/
inductive GoFunc (α β : Type) where
  | nil : GoFunc α β
  | mk (f : α → β) : GoFunc α β

/-- Go `f == nil` on a function value. -/
def goFuncIsNil {α β : Type} : GoFunc α β → Bool
  | .nil => true
  | .mk _ => false

/-- The Go expression `record.Validate` (no call): the method value bound
to `record`, which is always a non-nil function value. -/
def recordValidateMethodValue (rec : RecordBody) :
    GoFunc Unit (Option (List (String × String))) :=
  .mk (fun _ => rec.Validate)

/-- A value stored in the map built by `RecordToMap`
(`map[string]interface{}` restricted to the field types that occur). -/
inductive FieldValue where
  | str (s : String)
  | int (n : Int)
  | bool (b : Bool)
  | strList (l : List String)
  deriving DecidableEq, Repr

/-- `(*dns).RecordToMap` from the source. The guard is
`if err := record.Validate; err != nil { return nil }`: it binds the
method value, not its result, so `err` is a non-nil function value and
the nil map is returned on every input. The map-building tail is kept as
written in the source. -/
def RecordToMap (record : RecordBody) : Option (List (String × FieldValue)) :=
  if goFuncIsNil (recordValidateMethodValue record) = false then
    none
  else
    some [("name", .str record.Name),
          ("ttl", .int record.TTL),
          ("recordtype", .str record.RecordType),
          ("active", .bool record.Active),
          ("target", .strList record.Target)]

/-- `(*dns).NewRecordBody` from the source: builds
`&RecordBody{Name: params.Name}`; a Go composite literal zero-initialises
every field not listed. -/
def NewRecordBody (params : RecordBody) : RecordBody :=
  { Name := params.Name, RecordType := "", TTL := 0, Active := false, Target := [] }

/-- `localLock` from the source: iterate over the variadic `[]bool` and
return the first entry; return `true` when the slice is empty. -/
def localLock : List Bool → Bool
  | [] => true
  | lock :: _ => lock

/-- Outcome of the Session Collaborator's `p.Exec` call, as seen by the
caller: either a response carrying a status code, or a transport-level
error before any response. -/
inductive ExecResult where
  | ok (statusCode : Nat)
  | err (cause : String)
  deriving DecidableEq, Repr

/-- Error values a mutating operation can return: the `fmt.Errorf` wrap
of a failed `p.Exec` (transport error carrying its cause), or
`session.NewAPIError` carrying the unexpected status code. -/
inductive DNSError where
  | requestFailed (msg : String) (cause : String)
  | apiError (statusCode : Nat)
  deriving DecidableEq, Repr

/-- Everything observable about one mutating call: whether
`zoneRecordWriteLock.Lock()` ran, whether `p.Exec` was invoked, the
returned error value (`none` = Go `nil`), and the state of
`zoneRecordWriteLock` after the call returns (`true` = held). -/
structure MutationOutcome where
  lockAcquired : Bool
  execCalled : Bool
  result : Option DNSError
  finalLock : Bool
  deriving DecidableEq, Repr

/-- `(*dns).CreateRecord` from the source, as a function of the record,
zone, variadic lock argument, the Session Collaborator's behaviour and
the incoming state of `zoneRecordWriteLock`. When `localLock recLock` is
true the mutex is taken and `defer zoneRecordWriteLock.Unlock()` releases
it on every return path, so `finalLock` is `false` on those paths and the
incoming state otherwise. The guard is the source's
`if err := record.Validate; err != nil` over the method value; its body
returns Go `nil`. In the remainder (unreachable because the guard always
fires), `convertStructToReqBody` and `http.NewRequestWithContext` are
modelled as succeeding — JSON marshalling of `RecordBody` cannot fail —
and success requires status 201 (`http.StatusCreated`), any other status
producing `session.NewAPIError`. -/
def CreateRecord (record : RecordBody) (zone : String) (recLock : List Bool)
    (exec : ExecResult) (lock0 : Bool) : MutationOutcome :=
  let doLock := localLock recLock
  let afterDefer : Bool := if doLock then false else lock0
  if goFuncIsNil (recordValidateMethodValue record) = false then
    { lockAcquired := doLock, execCalled := false, result := none,
      finalLock := afterDefer }
  else
    match exec with
    | .err cause =>
        { lockAcquired := doLock, execCalled := true,
          result := some (.requestFailed "CreateRecord request failed" cause),
          finalLock := afterDefer }
    | .ok status =>
        { lockAcquired := doLock, execCalled := true,
          result := if status ≠ 201 then some (.apiError status) else none,
          finalLock := afterDefer }

/-- `(*dns).UpdateRecord` from the source; identical control flow to
`CreateRecord` with method PUT and expected status 200 (`http.StatusOK`). -/
def UpdateRecord (record : RecordBody) (zone : String) (recLock : List Bool)
    (exec : ExecResult) (lock0 : Bool) : MutationOutcome :=
  let doLock := localLock recLock
  let afterDefer : Bool := if doLock then false else lock0
  if goFuncIsNil (recordValidateMethodValue record) = false then
    { lockAcquired := doLock, execCalled := false, result := none,
      finalLock := afterDefer }
  else
    match exec with
    | .err cause =>
        { lockAcquired := doLock, execCalled := true,
          result := some (.requestFailed "UpdateRecord request failed" cause),
          finalLock := afterDefer }
    | .ok status =>
        { lockAcquired := doLock, execCalled := true,
          result := if status ≠ 200 then some (.apiError status) else none,
          finalLock := afterDefer }

/-- `(*dns).DeleteRecord` from the source; identical control flow with
method DELETE, an empty body, and expected status 204
(`http.StatusNoContent`). -/
def DeleteRecord (record : RecordBody) (zone : String) (recLock : List Bool)
    (exec : ExecResult) (lock0 : Bool) : MutationOutcome :=
  let doLock := localLock recLock
  let afterDefer : Bool := if doLock then false else lock0
  if goFuncIsNil (recordValidateMethodValue record) = false then
    { lockAcquired := doLock, execCalled := false, result := none,
      finalLock := afterDefer }
  else
    match exec with
    | .err cause =>
        { lockAcquired := doLock, execCalled := true,
          result := some (.requestFailed "DeleteRecord request failed" cause),
          finalLock := afterDefer }
    | .ok status =>
        { lockAcquired := doLock, execCalled := true,
          result := if status ≠ 204 then some (.apiError status) else none,
          finalLock := afterDefer }

/-- The validity condition as the claim states it, from the spec's words:
non-empty name, non-empty type, positive time-to-live, at least one
target value. -/
def specValidCondition (rec : RecordBody) : Prop :=
  rec.Name ≠ "" ∧ rec.RecordType ≠ "" ∧ 0 < rec.TTL ∧ rec.Target ≠ []

/-- The record used by the spec's end-to-end scenario:
`{name: "www.example.com", type: "A", ttl: 300, rdata: ["192.0.2.1"]}`. -/
def validRecord : RecordBody :=
  { Name := "www.example.com", RecordType := "A", TTL := 300,
    Active := false, Target := ["192.0.2.1"] }

/-- A record failing every required-field check: empty name, empty type,
zero TTL, no targets. -/
def invalidRecord : RecordBody :=
  { Name := "", RecordType := "", TTL := 0, Active := false, Target := [] }

/-- C1: the claim says an invalid record makes a mutating operation
signal a validation error without ever acquiring the write lock. The
code does the opposite at the failing input: `CreateRecord` on a record
with empty name, empty type, zero TTL and no targets, with the default
(empty) lock argument, acquires the write lock and returns Go `nil` —
no validation error reaches the caller, because the guard tests the
`Validate` method value against nil instead of calling it and its body
returns `nil`. -/
theorem createRecord_invalid_acquires_lock_and_returns_nil :
    (CreateRecord invalidRecord "example.com" [] (.ok 201) false).lockAcquired = true ∧
    (CreateRecord invalidRecord "example.com" [] (.ok 201) false).result = none ∧
    (UpdateRecord invalidRecord "example.com" [] (.ok 200) false).lockAcquired = true ∧
    (UpdateRecord invalidRecord "example.com" [] (.ok 200) false).result = none ∧
    (DeleteRecord invalidRecord "example.com" [] (.ok 204) false).lockAcquired = true ∧
    (DeleteRecord invalidRecord "example.com" [] (.ok 204) false).result = none := by
  refine ⟨rfl, rfl, rfl, rfl, rfl, rfl⟩

/-- C2: the claim says `CreateRecord` on a valid record succeeds iff the
response status is 201 and returns a `RemoteError` for any other status,
200 and 202 included. In the code the status check is unreachable: at
status 400 (and 200) `CreateRecord` on the spec's valid example record
returns Go `nil` without ever invoking the session's `Exec`, because the
validation guard always returns early. -/
theorem createRecord_ignores_status :
    (CreateRecord validRecord "example.com" [] (.ok 400) false).result = none ∧
    (CreateRecord validRecord "example.com" [] (.ok 400) false).execCalled = false ∧
    (CreateRecord validRecord "example.com" [] (.ok 200) false).result = none := by
  refine ⟨rfl, rfl, rfl⟩

/-- C3: the claim says `UpdateRecord` succeeds iff status 200 and
`DeleteRecord` iff status 204, any other status yielding a `RemoteError`.
In the code both return Go `nil` at status 404 on a valid record, never
invoking the session's `Exec`: the status checks are dead code behind the
validation guard. -/
theorem updateDeleteRecord_ignore_status :
    (UpdateRecord validRecord "example.com" [] (.ok 404) false).result = none ∧
    (UpdateRecord validRecord "example.com" [] (.ok 404) false).execCalled = false ∧
    (DeleteRecord validRecord "example.com" [] (.ok 404) false).result = none ∧
    (DeleteRecord validRecord "example.com" [] (.ok 404) false).execCalled = false := by
  refine ⟨rfl, rfl, rfl, rfl⟩

/-- C4: every mutating call that takes the write lock releases it on
every exit path — whatever the record, zone, session behaviour and prior
lock state, after `CreateRecord`, `UpdateRecord` or `DeleteRecord`
returns, `zoneRecordWriteLock` is free. -/
theorem mutating_call_releases_lock (record : RecordBody) (zone : String)
    (recLock : List Bool) (exec : ExecResult) (lock0 : Bool)
    (h : localLock recLock = true) :
    (CreateRecord record zone recLock exec lock0).finalLock = false ∧
    (UpdateRecord record zone recLock exec lock0).finalLock = false ∧
    (DeleteRecord record zone recLock exec lock0).finalLock = false := by
  refine ⟨?_, ?_, ?_⟩ <;>
    simp [CreateRecord, UpdateRecord, DeleteRecord, h,
      recordValidateMethodValue, goFuncIsNil]

/-- C4 witness: the lock-release theorem instantiated at the spec's
end-to-end scenario record with the default lock argument. -/
theorem mutating_call_releases_lock_witness :
    localLock [] = true ∧
    (CreateRecord validRecord "example.com" [] (.ok 201) false).finalLock = false :=
  ⟨rfl, (mutating_call_releases_lock validRecord "example.com" [] (.ok 201) false rfl).1⟩

/-- C5: each mutating call takes the write lock exactly when
`localLock recLock` is true, and `localLock` returns true on the empty
list (default), and the first element otherwise. -/
theorem lock_taken_iff_serialize (record : RecordBody) (zone : String)
    (recLock rest : List Bool) (exec : ExecResult) (lock0 : Bool) :
    (CreateRecord record zone recLock exec lock0).lockAcquired = localLock recLock ∧
    (UpdateRecord record zone recLock exec lock0).lockAcquired = localLock recLock ∧
    (DeleteRecord record zone recLock exec lock0).lockAcquired = localLock recLock ∧
    localLock [] = true ∧
    localLock (false :: rest) = false ∧
    localLock (true :: rest) = true := by
  refine ⟨?_, ?_, ?_, rfl, rfl, rfl⟩ <;>
    simp [CreateRecord, UpdateRecord, DeleteRecord,
      recordValidateMethodValue, goFuncIsNil]

/-- C6: the claim says a transport-level failure of the session's
`Exec` surfaces as a `TransportError` wrapping the cause, with the lock
still released. In the code `Exec` is never reached: with a failing
transport, `CreateRecord` on a valid record returns Go `nil`, never
invokes `Exec` (so no transport error can be produced), though the lock
is indeed released. -/
theorem transport_failure_never_observed :
    (CreateRecord validRecord "example.com" [] (.err "connection refused") false).result
      = none ∧
    (CreateRecord validRecord "example.com" [] (.err "connection refused") false).execCalled
      = false ∧
    (CreateRecord validRecord "example.com" [] (.err "connection refused") false).finalLock
      = false ∧
    (DeleteRecord validRecord "example.com" [] (.err "connection refused") false).result
      = none ∧
    (DeleteRecord validRecord "example.com" [] (.err "connection refused") false).execCalled
      = false := by
  refine ⟨rfl, rfl, rfl, rfl, rfl⟩

/-- C7 counterexample: the claim states `Validate` succeeds iff the
record has a non-empty name, non-empty type, positive TTL and at least
one target. The record `{Name := "a", RecordType := "A", TTL := -1,
Target := ["x"]}` refutes it: `Validate` returns nil (ozzo `Required`
rejects only the zero value, and `-1 ≠ 0`) while the TTL is not
positive. -/
theorem validate_positive_ttl_counterexample :
    ¬ (∀ rec : RecordBody, rec.Validate = none ↔ specValidCondition rec) := by
  intro h
  have hv : (RecordBody.mk "a" "A" (-1) false ["x"]).Validate = none := by decide
  have := (h (RecordBody.mk "a" "A" (-1) false ["x"])).mp hv
  exact absurd this.2.2.1 (by decide)

/-- C7 amended: `Validate` returns no error iff the record has a
non-empty name, a non-empty type, a non-zero (not necessarily positive)
TTL, and at least one target value; it is a pure function of the record. -/
theorem validate_iff_required_fields (rec : RecordBody) :
    rec.Validate = none ↔
      (rec.Name ≠ "" ∧ rec.RecordType ≠ "" ∧ rec.TTL ≠ 0 ∧ rec.Target ≠ []) := by
  unfold RecordBody.Validate requiredString requiredInt requiredStringList
  rcases rec with ⟨name, rtype, ttl, active, target⟩
  simp only [List.filterMap, Option.map]
  by_cases hn : name = "" <;> by_cases ht : rtype = "" <;>
    by_cases httl : ttl = 0 <;> by_cases htg : target.isEmpty <;>
      simp_all [List.isEmpty_iff]

/-- C8: the claim describes at most one in-flight network request among
concurrent serialized mutating calls, one request/response cycle
completing before the next begins. In the code no mutating call ever has
an in-flight network request: for every record, zone, lock argument,
session behaviour and prior lock state, none of the three operations
invokes the session's `Exec` — the validation guard returns before the
request is issued. -/
theorem mutating_calls_never_call_exec (record : RecordBody) (zone : String)
    (recLock : List Bool) (exec : ExecResult) (lock0 : Bool) :
    (CreateRecord record zone recLock exec lock0).execCalled = false ∧
    (UpdateRecord record zone recLock exec lock0).execCalled = false ∧
    (DeleteRecord record zone recLock exec lock0).execCalled = false := by
  refine ⟨?_, ?_, ?_⟩ <;>
    simp [CreateRecord, UpdateRecord, DeleteRecord,
      recordValidateMethodValue, goFuncIsNil]

/-- C9: `RecordToMap` returns the nil map on every record, valid or not,
because its guard compares the always-non-nil `Validate` method value
against nil and so always takes the error branch. -/
theorem recordToMap_always_nil (record : RecordBody) :
    RecordToMap record = none := rfl

/-- C10: `NewRecordBody` copies only `Name` from its parameter; the
`RecordType`, `TTL`, `Active` and `Target` fields of the result are the
Go zero values regardless of the parameter's contents. -/
theorem newRecordBody_keeps_only_name (params : RecordBody) :
    (NewRecordBody params).Name = params.Name ∧
    (NewRecordBody params).RecordType = "" ∧
    (NewRecordBody params).TTL = 0 ∧
    (NewRecordBody params).Active = false ∧
    (NewRecordBody params).Target = [] :=
  ⟨rfl, rfl, rfl, rfl, rfl⟩

end DnsSpec
